import Mathlib

/-!
Shallow embedding of the rcx interop bridge core
(src/include/rcx/internal/rcx.hpp, rcx_impl.hpp).

Values of the managed runtime are modelled by an inductive `Value`;
machine integers are `Int` with explicit range checks; C++ exceptions
thrown by the bridge are the `NativeExc` variant; fallible code returns
`Except NativeExc`.  Functions keep the names of the source entities
they embed (`cxx_protect`, `check_jump_tag`, `protect`,
`make_ruby_exception`, the `arg::*::parse` family, the
`FromValue`/`IntoValue` converters, `AssociatedValue`,
`DataTypeStorage::initialize_copy`).
-/

namespace RCX

/-- A managed exception object: its class name and its message string.
Created by `RubyError::format` and `make_ruby_exception` in the source. -/
structure ExcObj where
  cls : String
  msg : String
deriving DecidableEq

/-- An opaque managed-runtime handle (`rcx::Value` / `VALUE`).
`nil` is `RUBY_Qnil`; `boolV` covers `Qtrue`/`Qfalse`; `intV` is a Ruby
Integer (fixnum or bignum); `floatV` is a Ruby Float boxing a C
`double`, carried by its 64-bit object representation (boxing and
unboxing are representation-preserving and involve no floating-point
arithmetic); `excV` is an exception instance; `obj` is any other
object, identified opaquely. -/
inductive Value where
  | nil
  | boolV (b : Bool)
  | intV (n : Int)
  | floatV (bits : Nat)
  | excV (e : ExcObj)
  | obj (id : Nat)
deriving DecidableEq

/-- The C++ exceptions that cross frames inside the bridge:
`rubyError` is `rcx::RubyError` (carries the managed exception handle),
`jump` is `rcx::detail::Jump` (carries the jump-tag state),
`stdExc` is any other `std::exception` (typeid name and `what()` message),
`nonStdFault` is the `catch(...)` case, carrying the result of
`abi::__cxa_current_exception_type` when one is recoverable. -/
inductive NativeExc where
  | rubyError (exc : Value)
  | jump (state : Int)
  | stdExc (ty : String) (what : String)
  | nonStdFault (cet : Option String)
deriving DecidableEq

/-- Platform/ABI configuration of rcx_impl.hpp lines 22-31: the
`HAVE_ABI___CXA_DEMANGLE` and `HAVE_ABI___CXA_CURRENT_EXCEPTION_TYPE`
feature flags, and the demangler itself (an external facility, modelled
as an arbitrary function on type names). -/
structure Abi where
  haveDemangle : Bool
  demangle : String → String
  haveCurrentExceptionType : Bool

/-- A concrete ABI used to instantiate witnesses. -/
def abiId : Abi := ⟨true, fun s => s, true⟩

/-- `RUBY_TAG_RAISE` from `detail::check_jump_tag`. -/
def RUBY_TAG_RAISE : Int := 6

/-- `detail::check_jump_tag(int state)` (rcx_impl.hpp 106-123).
The second component threads the pending-error slot (`rb_errinfo`):
on the raise tag the pending exception is captured into a `RubyError`
and the slot is reset to nil (`rb_set_errinfo(RUBY_Qnil)`); any other
nonzero tag becomes a `Jump`. -/
def check_jump_tag (state : Int) (errinfo : Value) : Except NativeExc Unit × Value :=
  if state = 0 then (Except.ok (), errinfo)
  else if state = RUBY_TAG_RAISE then (Except.error (NativeExc.rubyError errinfo), Value.nil)
  else (Except.error (NativeExc.jump state), errinfo)

/-- Outcome of the managed computation wrapped by `rb_protect`:
either it returns a value normally (jump state 0), or it ends in a
non-local transfer with tag `state`, leaving `errinfo` in the pending
error slot. -/
inductive MOut where
  | ok (v : Value)
  | jump (state : Int) (errinfo : Value)

/-- `detail::protect(F functor)` (rcx_impl.hpp 125-152): run the functor
under `rb_protect`, then `check_jump_tag(state)`; on success return the
stored result unchanged.  `none` marks the impossible path in which
`rb_protect` reports a nonzero-entry jump as state 0 (the result slot
was never assigned). -/
def protect (out : MOut) (errinfo : Value) : Option (Except NativeExc Value × Value) :=
  match out with
  | MOut.ok v =>
      match check_jump_tag 0 errinfo with
      | (Except.ok _, e2) => some (Except.ok v, e2)
      | (Except.error exc, e2) => some (Except.error exc, e2)
  | MOut.jump s e =>
      match check_jump_tag s e with
      | (Except.ok _, _) => none
      | (Except.error exc, e2) => some (Except.error exc, e2)

/-- `detail::demangle_type_info` (rcx_impl.hpp 1200-1209): best-effort
demangling, or the empty string when the ABI facility is unavailable. -/
def demangle_type_info (abi : Abi) (ti : String) : String :=
  if abi.haveDemangle then abi.demangle ti else ""

/-- `detail::make_ruby_exception(exc, ti)` (rcx_impl.hpp 1211-1220):
a `RuntimeError` instance whose message is
`"{name or unknown}: {message}"`, where name is the demangled type name
(when a `type_info` was recovered) and message is `exc->what()`
(when a `std::exception` pointer was recovered). -/
def make_ruby_exception (abi : Abi) (what : Option String) (ti : Option String) : Value :=
  let name := match ti with
    | some t => demangle_type_info abi t
    | none => ""
  let msg := match what with
    | some m => m
    | none => ""
  Value.excV ⟨"RuntimeError", (if name = "" then "unknown" else name) ++ ": " ++ msg⟩

/-- What the trampoline boundary finally delivers to the managed
runtime: a normal return, `rb_exc_raise` of an exception object, or
`rb_jump_tag` of a transfer state. -/
inductive RtAction where
  | ret (v : Value)
  | raiseExc (exc : Value)
  | jumpTag (state : Int)
deriving DecidableEq

/-- `detail::cxx_protect` (rcx_impl.hpp 1222-1240): runs the functor and
converts every escaping C++ exception into a managed-runtime delivery.
Totality of this function is the no-unconverted-propagation invariant:
every native outcome maps to some `RtAction`. -/
def cxx_protect (abi : Abi) (out : Except NativeExc Value) : RtAction :=
  match out with
  | Except.ok v => RtAction.ret v
  | Except.error (NativeExc.jump s) => RtAction.jumpTag s
  | Except.error (NativeExc.rubyError e) => RtAction.raiseExc e
  | Except.error (NativeExc.stdExc ty what) =>
      RtAction.raiseExc (make_ruby_exception abi (some what) (some ty))
  | Except.error (NativeExc.nonStdFault cet) =>
      if abi.haveCurrentExceptionType then
        RtAction.raiseExc (make_ruby_exception abi none cet)
      else
        RtAction.raiseExc (make_ruby_exception abi none none)

/-- The body of the generated trampoline stub (rcx_impl.hpp 50-60): the
captured closure is invoked on the argument span and receiver, wrapped in
`cxx_protect`. -/
def trampoline_invoke (abi : Abi) (f : List Value → Value → Except NativeExc Value)
    (args : List Value) (self : Value) : RtAction :=
  cxx_protect abi (f args self)

/-! ## Argument parsing (rcx_impl.hpp 78-104, 204-247) -/

/-- An element conversion (`from_Value<T>`), which may raise. -/
abbrev Conv := Value → Except NativeExc Value

/-- The `ArgumentError` raised by `arg::Arg::parse`
(`rb_raise(rb_eArgError, "Missing required argument (%s)", name)`). -/
def argError (name : String) : Value :=
  Value.excV ⟨"ArgumentError", "Missing required argument (" ++ name ++ ")"⟩

/-- `arg::Arg<T, name>::parse` (rcx_impl.hpp 210-219): the required
positional parameter.  Empty remaining slice raises `ArgumentError`
naming the parameter; otherwise the front element is converted and the
cursor advances by one. -/
def Arg_parse (name : String) (conv : Conv) (args : List Value) :
    Except NativeExc (Value × List Value) :=
  match args with
  | [] => Except.error (NativeExc.rubyError (argError name))
  | v :: rest =>
      match conv v with
      | Except.ok a => Except.ok (a, rest)
      | Except.error e => Except.error e

/-- `arg::ArgOpt<T, name>::parse` (rcx_impl.hpp 221-230): the optional
positional parameter. -/
def ArgOpt_parse (conv : Conv) (args : List Value) :
    Except NativeExc (Option Value × List Value) :=
  match args with
  | [] => Except.ok (none, args)
  | v :: rest =>
      match conv v with
      | Except.ok a => Except.ok (some a, rest)
      | Except.error e => Except.error e

/-- The while loop of `arg::ArgSplat<T>::parse` (rcx_impl.hpp 235-241):
`values` accumulates the converted elements while `args` is drained one
element at a time; when the slice is empty the function executes
`return args;` — the drained slice, not `values`. -/
def ArgSplat_loop (conv : Conv) (values : List Value) (args : List Value) :
    Except NativeExc (List Value × List Value) :=
  match args with
  | [] => Except.ok (args, args)
  | v :: rest =>
      match conv v with
      | Except.ok a => ArgSplat_loop conv (values ++ [a]) rest
      | Except.error e => Except.error e

/-- `arg::ArgSplat<T>::parse` (rcx_impl.hpp 232-242).  The first
component of the result is what the source returns (`return args;`),
the second is the final cursor slice. -/
def ArgSplat_parse (conv : Conv) (args : List Value) :
    Except NativeExc (List Value × List Value) :=
  ArgSplat_loop conv [] args

/-- The heterogeneous results the parameter specs produce
(`ArgSpec::ResultType`): a plain value, an optional value, or the splat
collection. -/
inductive PResult where
  | val (v : Value)
  | opt (v : Option Value)
  | list (vs : List Value)
deriving DecidableEq

/-- A type-erased parameter spec: receives the receiver and the cursor
slice, produces its result and the advanced slice, or fails. -/
abbrev SpecFn := Value → List Value → Except NativeExc (PResult × List Value)

/-- `detail::Parser<ArgSpec...>::parse` (rcx_impl.hpp 78-89), minus the
final closure application: the spec parses run strictly left to right
(the source sequences them in a braced initializer list, which C++
evaluates left to right, before `std::apply`), results collected in
order. -/
def parse_specs (specs : List SpecFn) (self : Value) (args : List Value) :
    Except NativeExc (List PResult × List Value) :=
  match specs with
  | [] => Except.ok ([], args)
  | s :: rest =>
      match s self args with
      | Except.error e => Except.error e
      | Except.ok (r, args1) =>
          match parse_specs rest self args1 with
          | Except.error e => Except.error e
          | Except.ok (rs, args2) => Except.ok (r :: rs, args2)

/-- `detail::method_callback<ArgSpec...>::alloc` body (rcx_impl.hpp
91-104): parse all specs, then invoke the native closure on the ordered
results; a parse failure propagates and the closure is never invoked. -/
def method_callback (specs : List SpecFn) (func : List PResult → Except NativeExc Value)
    (self : Value) (args : List Value) : Except NativeExc Value :=
  match parse_specs specs self args with
  | Except.error e => Except.error e
  | Except.ok (rs, _) => func rs

/-- `Arg<T, name>` as a type-erased spec. -/
def requiredSpec (name : String) (conv : Conv) : SpecFn := fun _self args =>
  match Arg_parse name conv args with
  | Except.ok (v, rest) => Except.ok (PResult.val v, rest)
  | Except.error e => Except.error e

/-- `ArgOpt<T, name>` as a type-erased spec. -/
def optionalSpec (conv : Conv) : SpecFn := fun _self args =>
  match ArgOpt_parse conv args with
  | Except.ok (v, rest) => Except.ok (PResult.opt v, rest)
  | Except.error e => Except.error e

/-- `ArgSplat<T>` as a type-erased spec. -/
def splatSpec (conv : Conv) : SpecFn := fun _self args =>
  match ArgSplat_parse conv args with
  | Except.ok (vs, rest) => Except.ok (PResult.list vs, rest)
  | Except.error e => Except.error e

/-- A spec that always fails with `e`, for observing short-circuiting. -/
def failSpec (e : NativeExc) : SpecFn := fun _self _args => Except.error e

/-- `from_Value<Value>`: the identity conversion (a `Value` is already
convertible to `Value`, rcx_impl.hpp 257-263). -/
def convId : Conv := fun v => Except.ok v

/-- A conversion that fails on one designated value, for observing that
splat parsing converts every element. -/
def failOn (bad : Value) (e : NativeExc) : Conv := fun v =>
  if v = bad then Except.error e else Except.ok v

/-! ## Scalar conversions (rcx_impl.hpp 265-316)

The Ruby coercion macros (`NUM2INT`, `RB_NUM2SHORT`, ...) belong to the
external runtime; they are modelled at their interface: a Ruby Integer
in range coerces to its value, one out of range raises a
`RangeError`-class exception, any other handle is grouped with the
`TypeError` failure (the runtime's Float-to-integer truncation is
outside this model; the claims coerce Integer handles only).  The
source calls the macros under `detail::protect`, so a raise surfaces as
a `NativeExc.rubyError`. -/

/-- `TypeError` raised by the runtime coercion on a non-numeric value. -/
def coerceTypeError : NativeExc :=
  NativeExc.rubyError (Value.excV ⟨"TypeError", "no implicit conversion into Integer"⟩)

/-- The narrowing message of `FromValue<signed char>` and
`FromValue<unsigned char>` (rcx_impl.hpp 276-277, 289-290):
`"integer {v} too {small|big} to convert to {type}"`, the direction
chosen by `v < 0`. -/
def narrowMsg (ty : String) (n : Int) : String :=
  "integer " ++ toString n ++ " too " ++ (if n < 0 then "small" else "big")
    ++ " to convert to " ++ ty

/-- `RangeError` instance with the narrowing message. -/
def rangeError (ty : String) (n : Int) : NativeExc :=
  NativeExc.rubyError (Value.excV ⟨"RangeError", narrowMsg ty n⟩)

/-- Runtime coercion to a signed machine integer of the given width. -/
def num2signed (bits : Nat) (ty : String) (v : Value) : Except NativeExc Int :=
  match v with
  | Value.intV n =>
      if n < -(2 ^ (bits - 1)) ∨ 2 ^ (bits - 1) - 1 < n then Except.error (rangeError ty n)
      else Except.ok n
  | _ => Except.error coerceTypeError

/-- Runtime coercion to an unsigned machine integer of the given width. -/
def num2unsigned (bits : Nat) (ty : String) (v : Value) : Except NativeExc Int :=
  match v with
  | Value.intV n =>
      if n < 0 ∨ 2 ^ bits - 1 < n then Except.error (rangeError ty n)
      else Except.ok n
  | _ => Except.error coerceTypeError

/-- `NUM2INT`: coercion to the C `int` (32-bit). -/
def NUM2INT (v : Value) : Except NativeExc Int :=
  num2signed 32 "int" v

/-- `RB_TEST` (truthiness): everything except nil and false is true. -/
def RB_TEST (v : Value) : Bool :=
  match v with
  | Value.nil => false
  | Value.boolV b => b
  | _ => true

/-- `FromValue<bool>::convert` (rcx_impl.hpp 265-267). -/
def FromValue_bool (v : Value) : Bool :=
  RB_TEST v

/-- `IntoValue<bool>::convert` (rcx_impl.hpp 268-270). -/
def IntoValue_bool (b : Bool) : Value :=
  Value.boolV b

/-- `static_cast<signed char>` of an `int` (twos-complement wrap). -/
def scharCast (n : Int) : Int :=
  (n + 128) % 256 - 128

/-- `static_cast<unsigned char>` of an `int` (modular wrap). -/
def ucharCast (n : Int) : Int :=
  n % 256

/-- `FromValue<signed char>::convert` (rcx_impl.hpp 272-280): coerce via
`NUM2INT`, narrow with a cast, and raise `RangeError` when the narrowed
value differs from the coerced one. -/
def FromValue_schar (v : Value) : Except NativeExc Int :=
  match NUM2INT v with
  | Except.error e => Except.error e
  | Except.ok n =>
      let r := scharCast n
      if n ≠ r then Except.error (rangeError "signed char" n)
      else Except.ok r

/-- `IntoValue<signed char>::convert` (rcx_impl.hpp 281-283): `INT2FIX`. -/
def IntoValue_schar (n : Int) : Value :=
  Value.intV n

/-- `FromValue<unsigned char>::convert` (rcx_impl.hpp 285-293). -/
def FromValue_uchar (v : Value) : Except NativeExc Int :=
  match NUM2INT v with
  | Except.error e => Except.error e
  | Except.ok n =>
      let r := ucharCast n
      if n ≠ r then Except.error (rangeError "unsigned char" n)
      else Except.ok r

/-- `IntoValue<unsigned char>::convert` (rcx_impl.hpp 294-296): `INT2FIX`. -/
def IntoValue_uchar (n : Int) : Value :=
  Value.intV n

/-- `FromValue<short>` via `RB_NUM2SHORT` (rcx_impl.hpp 306). -/
def FromValue_short (v : Value) : Except NativeExc Int :=
  num2signed 16 "short" v

/-- `IntoValue<short>` via `RB_INT2FIX`. -/
def IntoValue_short (n : Int) : Value :=
  Value.intV n

/-- `FromValue<unsigned short>` via `RB_NUM2USHORT` (rcx_impl.hpp 307). -/
def FromValue_ushort (v : Value) : Except NativeExc Int :=
  num2unsigned 16 "unsigned short" v

/-- `IntoValue<unsigned short>` via `RB_INT2FIX`. -/
def IntoValue_ushort (n : Int) : Value :=
  Value.intV n

/-- `FromValue<int>` via `RB_NUM2INT` (rcx_impl.hpp 308). -/
def FromValue_int (v : Value) : Except NativeExc Int :=
  num2signed 32 "int" v

/-- `IntoValue<int>` via `RB_INT2NUM`. -/
def IntoValue_int (n : Int) : Value :=
  Value.intV n

/-- `FromValue<unsigned int>` via `RB_NUM2UINT` (rcx_impl.hpp 309). -/
def FromValue_uint (v : Value) : Except NativeExc Int :=
  num2unsigned 32 "unsigned int" v

/-- `IntoValue<unsigned int>` via `RB_UINT2NUM`. -/
def IntoValue_uint (n : Int) : Value :=
  Value.intV n

/-- `FromValue<long long>` via `RB_NUM2LL` (rcx_impl.hpp 312); `long`
(rcx_impl.hpp 310) has the same 64-bit width on the LP64 model. -/
def FromValue_llong (v : Value) : Except NativeExc Int :=
  num2signed 64 "long long" v

/-- `IntoValue<long long>` via `RB_LL2NUM`. -/
def IntoValue_llong (n : Int) : Value :=
  Value.intV n

/-- `FromValue<unsigned long long>` via `RB_NUM2ULL` (rcx_impl.hpp 313). -/
def FromValue_ullong (v : Value) : Except NativeExc Int :=
  num2unsigned 64 "unsigned long long" v

/-- `IntoValue<unsigned long long>` via `RB_ULL2NUM`. -/
def IntoValue_ullong (n : Int) : Value :=
  Value.intV n

/-- `rb_num2dbl`, modelled at its interface: a Float handle unboxes to
the representation it carries, unchanged; an Integer handle coerces
through the runtime's int-to-double conversion, an external
floating-point operation passed in as `i2d`; any other handle raises
`TypeError`. -/
def rb_num2dbl (i2d : Int → Nat) (v : Value) : Except NativeExc Nat :=
  match v with
  | Value.floatV bits => Except.ok bits
  | Value.intV n => Except.ok (i2d n)
  | _ => Except.error coerceTypeError

/-- `FromValue<double>::convert` via `rb_num2dbl` (rcx_impl.hpp 314).
A double value is carried by its 64-bit representation; unboxing a
Float handle returns it unchanged. -/
def FromValue_double (i2d : Int → Nat) (v : Value) : Except NativeExc Nat :=
  rb_num2dbl i2d v

/-- `IntoValue<double>::convert` via `rb_float_new` (rcx_impl.hpp 314):
boxes the double representation into a Float handle unchanged. -/
def IntoValue_double (bits : Nat) : Value :=
  Value.floatV bits

/-! ## Composite conversions: `std::optional<T>` (rcx_impl.hpp 1091-1099) -/

/-- `FromValue<std::optional<T>>::convert` (rcx_impl.hpp 1091-1094):
`v.is_nil() ? nullopt : from_Value<T>(v)`. -/
def FromValue_optional (conv : Conv) (v : Value) : Except NativeExc (Option Value) :=
  if v = Value.nil then Except.ok none
  else
    match conv v with
    | Except.ok a => Except.ok (some a)
    | Except.error e => Except.error e

/-- `IntoValue<std::optional<T>>::convert` (rcx_impl.hpp 1096-1099):
`value ? Value::qnil : into_Value(*value)`.  An engaged optional takes
the `Value::qnil` branch; a disengaged one evaluates `into_Value` of
`*value`, a dereference of an empty optional, modelled as the undefined
outcome `Option.map conv none = none`. -/
def IntoValue_optional (conv : Int → Value) (v : Option Int) : Option Value :=
  match v with
  | some _ => some Value.nil
  | none => Option.map conv v

/-! ## Native-bound object access (rcx_impl.hpp 318-328) and two-way
association (rcx.hpp 1148-1175, rcx_impl.hpp 432-442) -/

/-- A managed wrapper object for a native-bound type: its frozen flag
and its data slot (none before `initialize` attaches the payload). -/
structure RWrapper where
  frozen : Bool
  payload : Option Nat
deriving DecidableEq

/-- The `FrozenError` the runtime raises from `rb_check_frozen`,
surfacing through `detail::protect` as a `RubyError`. -/
def frozenError : NativeExc :=
  NativeExc.rubyError (Value.excV ⟨"FrozenError", "cannot modify frozen object"⟩)

/-- The uninitialized-object failure of `FromValue<T>::convert`
(rcx_impl.hpp 324-326): `throw std::runtime_error{"Object is not yet
initialized"}`, a native exception distinct from the `FrozenError`. -/
def uninitializedError : NativeExc :=
  NativeExc.stdExc "std::runtime_error" "Object is not yet initialized"

/-- `rb_check_frozen`, modelled at its interface. -/
def rb_check_frozen (w : RWrapper) : Except NativeExc Unit :=
  if w.frozen then Except.error frozenError else Except.ok ()

/-- `FromValue<T>::convert` for `T` derived from `WrappedStructBase`
(rcx_impl.hpp 318-328): for non-const `T` first check the wrapper is not
frozen, then fetch the typed data slot and fail when no payload is
attached yet. -/
def FromValue_wrapped (isConst : Bool) (w : RWrapper) : Except NativeExc Nat :=
  match (if isConst then Except.ok () else rb_check_frozen w) with
  | Except.error e => Except.error e
  | Except.ok _ =>
      match w.payload with
      | none => Except.error uninitializedError
      | some p => Except.ok p

/-- `typed_data::AssociatedValue` (rcx.hpp 1148-1175): the optional
back-reference from a native payload to its owning managed handle. -/
structure AssociatedValue where
  value_ : Option Value
deriving DecidableEq

/-- The copy constructor `AssociatedValue(AssociatedValue const &)`
(rcx.hpp 1153-1154): the copy starts unassociated. -/
def AssociatedValue_copy (_src : AssociatedValue) : AssociatedValue :=
  ⟨none⟩

/-- The copy assignment `operator=(AssociatedValue const &)`
(rcx.hpp 1155-1157): the target is returned unchanged. -/
def AssociatedValue_assign (target : AssociatedValue) (_src : AssociatedValue) : AssociatedValue :=
  target

/-- `AssociatedValue::associate_value` (rcx.hpp 1159-1164): one-shot;
associating an already-associated payload throws. -/
def associate_value (a : AssociatedValue) (v : Value) : Except NativeExc AssociatedValue :=
  match a.value_ with
  | some _ => Except.error (NativeExc.stdExc "std::runtime_error" "Already associcated")
  | none => Except.ok ⟨some v⟩

/-- `AssociatedValue::get_associated_value` (rcx.hpp 1166-1168). -/
def get_associated_value (a : AssociatedValue) : Option Value :=
  a.value_

/-- A native payload of a two-way-associated type: its association state
plus its own data. -/
structure Payload where
  assoc : AssociatedValue
  data : Nat
deriving DecidableEq

/-- The compiler-generated copy constructor of a payload type deriving
`TwoWayAssociation`: members copied memberwise, the association member
through `AssociatedValue_copy`. -/
def Payload_copy (p : Payload) : Payload :=
  ⟨AssociatedValue_copy p.assoc, p.data⟩

/-- `DataTypeStorage<T>::initialize_copy` (rcx_impl.hpp 432-442):
copy-construct the payload from `obj`, attach it to the wrapper `value`,
and (for two-way-associated types) associate it with `value`. -/
def initialize_copy (value : Value) (obj : Payload) : Except NativeExc Payload :=
  let d := Payload_copy obj
  match associate_value d.assoc value with
  | Except.error e => Except.error e
  | Except.ok a => Except.ok ⟨a, d.data⟩

/-! ## Helper lemmas -/

theorem num2signed_ok (bits : Nat) (ty : String) (n : Int)
    (h1 : -(2 ^ (bits - 1)) ≤ n) (h2 : n ≤ 2 ^ (bits - 1) - 1) :
    num2signed bits ty (Value.intV n) = Except.ok n := by
  simp only [num2signed]
  rw [if_neg (by omega)]

theorem num2unsigned_ok (bits : Nat) (ty : String) (n : Int)
    (h1 : 0 ≤ n) (h2 : n ≤ 2 ^ bits - 1) :
    num2unsigned bits ty (Value.intV n) = Except.ok n := by
  simp only [num2unsigned]
  rw [if_neg (by omega)]

/-- C1: every invocation of a generated trampoline runs through
`cxx_protect`, which converts every escaping native condition: a
captured `RubyError` is re-raised as the exact same exception object, a
captured `Jump` is forwarded with the same state, any other
`std::exception` becomes a `RuntimeError` instance whose message carries
the best-effort demangled type name and the `what()` message, and a
fault with no recoverable type still produces a `RuntimeError` with
"unknown" in place of the type name.  The five equations cover every
constructor of the native outcome, so no exception crosses the boundary
unconverted. -/
theorem c1_trampoline_exception_conversion (abi : Abi) (v e : Value) (s : Int)
    (ty what : String) (args : List Value) (self : Value) :
    (∀ f, trampoline_invoke abi f args self = cxx_protect abi (f args self)) ∧
    cxx_protect abi (Except.ok v) = RtAction.ret v ∧
    cxx_protect abi (Except.error (NativeExc.rubyError e)) = RtAction.raiseExc e ∧
    cxx_protect abi (Except.error (NativeExc.jump s)) = RtAction.jumpTag s ∧
    cxx_protect abi (Except.error (NativeExc.stdExc ty what)) =
      RtAction.raiseExc (Value.excV ⟨"RuntimeError",
        (if demangle_type_info abi ty = "" then "unknown" else demangle_type_info abi ty)
          ++ ": " ++ what⟩) ∧
    cxx_protect abi (Except.error (NativeExc.nonStdFault none)) =
      RtAction.raiseExc (Value.excV ⟨"RuntimeError", "unknown: "⟩) := by
  refine ⟨fun f => rfl, rfl, rfl, rfl, rfl, ?_⟩
  by_cases h : abi.haveCurrentExceptionType = true <;>
    simp [cxx_protect, make_ruby_exception, h]

/-- C2: an outbound protected call returns the wrapped result unchanged
on jump state 0; on the raise tag it captures the pending exception into
a `RubyError` carrying that exact handle and clears the pending-error
slot; any other nonzero state becomes an opaque `Jump` carrying that
state, which `cxx_protect` re-triggers verbatim at the trampoline top. -/
theorem c2_protect_jump_capture (abi : Abi) (a e ei : Value) (s : Int)
    (h0 : s ≠ 0) (h6 : s ≠ RUBY_TAG_RAISE) :
    protect (MOut.ok a) ei = some (Except.ok a, ei) ∧
    protect (MOut.jump RUBY_TAG_RAISE e) ei =
      some (Except.error (NativeExc.rubyError e), Value.nil) ∧
    protect (MOut.jump s e) ei = some (Except.error (NativeExc.jump s), e) ∧
    cxx_protect abi (Except.error (NativeExc.jump s)) = RtAction.jumpTag s := by
  refine ⟨rfl, rfl, ?_, rfl⟩
  simp [protect, check_jump_tag, h0, h6]

/-- Closed witness for `c2_protect_jump_capture` at state 3. -/
theorem c2_protect_jump_capture_witness :
    ((3 : Int) ≠ 0 ∧ (3 : Int) ≠ RUBY_TAG_RAISE) ∧
    (protect (MOut.ok Value.nil) Value.nil = some (Except.ok Value.nil, Value.nil) ∧
      protect (MOut.jump RUBY_TAG_RAISE Value.nil) Value.nil =
        some (Except.error (NativeExc.rubyError Value.nil), Value.nil) ∧
      protect (MOut.jump 3 Value.nil) Value.nil =
        some (Except.error (NativeExc.jump 3), Value.nil) ∧
      cxx_protect abiId (Except.error (NativeExc.jump 3)) = RtAction.jumpTag 3) :=
  ⟨⟨by decide, by decide⟩,
    c2_protect_jump_capture abiId Value.nil Value.nil Value.nil 3 (by decide) (by decide)⟩

/-- The spec list `[Required<A>, Optional<B>, Splat<C>]` with identity
element conversions, used to evaluate the parse pipeline. -/
def c4Specs : List SpecFn :=
  [requiredSpec "a" convId, optionalSpec convId, splatSpec convId]

/-- C3: evaluation of `ArgSplat::parse` as written.  The loop does drain
the whole slice and does convert every element in order (the second
conjunct shows the conversion of the second element is reached and its
raise propagates), but the function then executes `return args;`, so a
successful parse yields the drained, empty slice instead of the ordered
sequence of converted elements. -/
theorem c3_splat_returns_drained_slice :
    ArgSplat_parse convId [Value.intV 1, Value.intV 2] = Except.ok ([], []) ∧
    ArgSplat_parse (failOn (Value.intV 2) coerceTypeError) [Value.intV 1, Value.intV 2] =
      Except.error coerceTypeError ∧
    List.mapM convId [Value.intV 1, Value.intV 2] =
      Except.ok [Value.intV 1, Value.intV 2] := by
  refine ⟨rfl, ?_, rfl⟩
  rfl

/-- C4: the `[Required<A>, Optional<B>, Splat<C>]` pipeline evaluated at
argument vectors of length 0 to 3.  Length 0 fails with the
`ArgumentError` naming the missing required parameter and the native
closure is never invoked (the `method_callback` equation); length 1
yields (A, absent, []); length 2 yields (A, B, []); but length 3 yields
(A, B, []) where the claim expects (A, B, [C]) — the splat result is
lost by `return args;`. -/
theorem c4_required_optional_splat_arities :
    parse_specs c4Specs Value.nil [] =
      Except.error (NativeExc.rubyError (argError "a")) ∧
    method_callback c4Specs (fun _ => Except.ok (Value.intV 99)) Value.nil [] =
      Except.error (NativeExc.rubyError (argError "a")) ∧
    parse_specs c4Specs Value.nil [Value.intV 1] =
      Except.ok ([PResult.val (Value.intV 1), PResult.opt none, PResult.list []], []) ∧
    parse_specs c4Specs Value.nil [Value.intV 1, Value.intV 2] =
      Except.ok ([PResult.val (Value.intV 1), PResult.opt (some (Value.intV 2)),
        PResult.list []], []) ∧
    parse_specs c4Specs Value.nil [Value.intV 1, Value.intV 2, Value.intV 3] =
      Except.ok ([PResult.val (Value.intV 1), PResult.opt (some (Value.intV 2)),
        PResult.list []], []) :=
  ⟨rfl, rfl, rfl, rfl, rfl⟩

/-- C5: evaluation of the `std::optional<T>` converters as written.  The
handle-to-optional direction is correct (nil becomes absent, anything
else becomes present with the converted value), but the
optional-to-handle direction is inverted: a present optional takes the
`Value::qnil` branch, and an absent one dereferences the empty optional
(the undefined outcome `none`), where the claim expects the conversion
of the contained value and nil respectively. -/
theorem c5_optional_conversion_inverted :
    FromValue_optional convId Value.nil = Except.ok none ∧
    FromValue_optional convId (Value.intV 5) = Except.ok (some (Value.intV 5)) ∧
    IntoValue_optional Value.intV (some 42) = some Value.nil ∧
    IntoValue_optional Value.intV none = none :=
  ⟨rfl, rfl, rfl, rfl⟩

/-- C6: round-trip law for every registered scalar conversion: for
every value representable in the native type (its machine range),
converting into a handle and back yields the same value.  Covers bool,
the integral scalar table (signed/unsigned char, short, int, long long
and the same-width long), and double: a double is carried by its 64-bit
representation, which `rb_float_new` boxes and `rb_num2dbl` unboxes
unchanged — the round trip is representation-preserving for every
double value and involves no floating-point arithmetic (`i2d`, the
runtime's int-to-double coercion, quantified over arbitrarily, is never
reached when unboxing a Float handle). -/
theorem c6_scalar_roundtrip (b : Bool) (s8 u8 s16 u16 s32 u32 s64 u64 : Int)
    (dbl : Nat) (i2d : Int → Nat)
    (hs8a : -128 ≤ s8) (hs8b : s8 ≤ 127)
    (hu8a : 0 ≤ u8) (hu8b : u8 ≤ 255)
    (hs16a : -(2 ^ 15) ≤ s16) (hs16b : s16 ≤ 2 ^ 15 - 1)
    (hu16a : 0 ≤ u16) (hu16b : u16 ≤ 2 ^ 16 - 1)
    (hs32a : -(2 ^ 31) ≤ s32) (hs32b : s32 ≤ 2 ^ 31 - 1)
    (hu32a : 0 ≤ u32) (hu32b : u32 ≤ 2 ^ 32 - 1)
    (hs64a : -(2 ^ 63) ≤ s64) (hs64b : s64 ≤ 2 ^ 63 - 1)
    (hu64a : 0 ≤ u64) (hu64b : u64 ≤ 2 ^ 64 - 1)
    (_hdbl : dbl ≤ 2 ^ 64 - 1) :
    FromValue_bool (IntoValue_bool b) = b ∧
    FromValue_schar (IntoValue_schar s8) = Except.ok s8 ∧
    FromValue_uchar (IntoValue_uchar u8) = Except.ok u8 ∧
    FromValue_short (IntoValue_short s16) = Except.ok s16 ∧
    FromValue_ushort (IntoValue_ushort u16) = Except.ok u16 ∧
    FromValue_int (IntoValue_int s32) = Except.ok s32 ∧
    FromValue_uint (IntoValue_uint u32) = Except.ok u32 ∧
    FromValue_llong (IntoValue_llong s64) = Except.ok s64 ∧
    FromValue_ullong (IntoValue_ullong u64) = Except.ok u64 ∧
    FromValue_double i2d (IntoValue_double dbl) = Except.ok dbl := by
  refine ⟨?_, ?_, ?_, ?_, ?_, ?_, ?_, ?_, ?_, rfl⟩
  · cases b <;> rfl
  · have h := num2signed_ok 32 "int" s8 (by omega) (by omega)
    have hc : scharCast s8 = s8 := by unfold scharCast; omega
    simp [FromValue_schar, IntoValue_schar, NUM2INT, h, hc]
  · have h := num2signed_ok 32 "int" u8 (by omega) (by omega)
    have hc : ucharCast u8 = u8 := by unfold ucharCast; omega
    simp [FromValue_uchar, IntoValue_uchar, NUM2INT, h, hc]
  · exact num2signed_ok 16 "short" s16 (by omega) (by omega)
  · exact num2unsigned_ok 16 "unsigned short" u16 (by omega) (by omega)
  · exact num2signed_ok 32 "int" s32 (by omega) (by omega)
  · exact num2unsigned_ok 32 "unsigned int" u32 (by omega) (by omega)
  · exact num2signed_ok 64 "long long" s64 (by omega) (by omega)
  · exact num2unsigned_ok 64 "unsigned long long" u64 (by omega) (by omega)

/-- Closed witness for `c6_scalar_roundtrip` at concrete in-range
values. -/
theorem c6_scalar_roundtrip_witness :
    ((-128 ≤ (-5 : Int) ∧ (-5 : Int) ≤ 127) ∧ (0 ≤ (200 : Int) ∧ (200 : Int) ≤ 255) ∧
      (42 : Nat) ≤ 2 ^ 64 - 1) ∧
    (FromValue_bool (IntoValue_bool true) = true ∧
      FromValue_schar (IntoValue_schar (-5)) = Except.ok (-5) ∧
      FromValue_uchar (IntoValue_uchar 200) = Except.ok 200 ∧
      FromValue_short (IntoValue_short 7) = Except.ok 7 ∧
      FromValue_ushort (IntoValue_ushort 7) = Except.ok 7 ∧
      FromValue_int (IntoValue_int 7) = Except.ok 7 ∧
      FromValue_uint (IntoValue_uint 7) = Except.ok 7 ∧
      FromValue_llong (IntoValue_llong 7) = Except.ok 7 ∧
      FromValue_ullong (IntoValue_ullong 7) = Except.ok 7 ∧
      FromValue_double (fun _ => 0) (IntoValue_double 42) = Except.ok 42) :=
  ⟨⟨⟨by decide, by decide⟩, ⟨by decide, by decide⟩, by decide⟩,
    c6_scalar_roundtrip true (-5) 200 7 7 7 7 7 7 42 (fun _ => 0)
      (by decide) (by decide) (by decide) (by decide) (by decide) (by decide)
      (by decide) (by decide) (by decide) (by decide) (by decide) (by decide)
      (by decide) (by decide) (by decide) (by decide) (by decide)⟩

/-- C7: narrowing to `signed char` / `unsigned char` from a coerced
`int` that does not fit the 8-bit width fails with a `RangeError` whose
message names the target type and says "small" exactly when the value is
below the target range and "big" exactly when it is above (for
`unsigned char`, below the range means negative). -/
theorem c7_narrowing_range_error (n m : Int)
    (hn1 : -(2 ^ 31) ≤ n) (hn2 : n ≤ 2 ^ 31 - 1) (hn3 : n < -128 ∨ 127 < n)
    (hm1 : -(2 ^ 31) ≤ m) (hm2 : m ≤ 2 ^ 31 - 1) (hm3 : m < 0 ∨ 255 < m) :
    FromValue_schar (Value.intV n) =
      Except.error (NativeExc.rubyError (Value.excV ⟨"RangeError",
        "integer " ++ toString n ++ " too " ++ (if n < -128 then "small" else "big")
          ++ " to convert to " ++ "signed char"⟩)) ∧
    FromValue_uchar (Value.intV m) =
      Except.error (NativeExc.rubyError (Value.excV ⟨"RangeError",
        "integer " ++ toString m ++ " too " ++ (if m < 0 then "small" else "big")
          ++ " to convert to " ++ "unsigned char"⟩)) := by
  constructor
  · have h := num2signed_ok 32 "int" n (by omega) (by omega)
    have hc : scharCast n ≠ n := by unfold scharCast; omega
    have hdir : (if n < 0 then "small" else "big") = (if n < -128 then "small" else "big") := by
      rcases hn3 with h3 | h3
      · rw [if_pos (by omega), if_pos h3]
      · rw [if_neg (by omega), if_neg (by omega)]
    simp only [FromValue_schar, NUM2INT, h, rangeError, narrowMsg, hdir]
    rw [if_pos (by omega)]
  · have h := num2signed_ok 32 "int" m (by omega) (by omega)
    have hc : ucharCast m ≠ m := by unfold ucharCast; omega
    simp only [FromValue_uchar, NUM2INT, h, rangeError, narrowMsg]
    rw [if_pos (by omega)]

/-- Closed witness for `c7_narrowing_range_error` at 200 and -1. -/
theorem c7_narrowing_range_error_witness :
    ((-(2 ^ 31) ≤ (200 : Int) ∧ (200 : Int) ≤ 2 ^ 31 - 1 ∧
        ((200 : Int) < -128 ∨ (127 : Int) < 200)) ∧
      (-(2 ^ 31) ≤ (-1 : Int) ∧ (-1 : Int) ≤ 2 ^ 31 - 1 ∧
        ((-1 : Int) < 0 ∨ (255 : Int) < -1))) ∧
    (FromValue_schar (Value.intV 200) =
      Except.error (NativeExc.rubyError (Value.excV ⟨"RangeError",
        "integer " ++ toString (200 : Int) ++ " too "
          ++ (if (200 : Int) < -128 then "small" else "big")
          ++ " to convert to " ++ "signed char"⟩)) ∧
    FromValue_uchar (Value.intV (-1)) =
      Except.error (NativeExc.rubyError (Value.excV ⟨"RangeError",
        "integer " ++ toString (-1 : Int) ++ " too "
          ++ (if (-1 : Int) < 0 then "small" else "big")
          ++ " to convert to " ++ "unsigned char"⟩))) :=
  ⟨⟨⟨by decide, by decide, by decide⟩, ⟨by decide, by decide, by decide⟩⟩,
    c7_narrowing_range_error 200 (-1) (by decide) (by decide) (by decide)
      (by decide) (by decide) (by decide)⟩

/-- C8: parameter specs are evaluated strictly left to right, for every
spec list and every argument vector.  The first conjunct decomposes the
parse of a concatenated spec list: every spec of the first segment runs
to completion (its conversions and any raise included) before anything
of the second segment, and results are collected in segment order; no
quantifier constrains the argument count, so the order is independent of
it.  The second conjunct shows a failing spec short-circuits: later
specs and the native closure are never consulted.  The third conjunct
shows the closure receives the sequenced results only after the whole
parse. -/
theorem c8_specs_left_to_right :
    (∀ (s1 s2 : List SpecFn) (self : Value) (args : List Value),
      parse_specs (s1 ++ s2) self args =
        match parse_specs s1 self args with
        | Except.error e => Except.error e
        | Except.ok (r1, a1) =>
            match parse_specs s2 self a1 with
            | Except.error e => Except.error e
            | Except.ok (r2, a2) => Except.ok (r1 ++ r2, a2)) ∧
    (∀ (e : NativeExc) (specs : List SpecFn) (func : List PResult → Except NativeExc Value)
        (self : Value) (args : List Value),
      method_callback (failSpec e :: specs) func self args = Except.error e) ∧
    (∀ (func : List PResult → Except NativeExc Value) (self : Value) (args : List Value),
      method_callback [] func self args = func []) := by
  refine ⟨?_, fun e specs func self args => rfl, fun func self args => rfl⟩
  intro s1 s2 self args
  induction s1 generalizing args with
  | nil =>
      simp only [List.nil_append, parse_specs]
      cases parse_specs s2 self args with
      | error e => rfl
      | ok p => cases p with | mk r2 a2 => rfl
  | cons s rest ih =>
      simp only [List.cons_append, parse_specs, List.append_eq]
      cases s self args with
      | error e => rfl
      | ok p =>
          cases p with
          | mk r a1 =>
              dsimp only
              rw [ih a1]
              cases parse_specs rest self a1 with
              | error e => rfl
              | ok q =>
                  cases q with
                  | mk r1 a2 =>
                      dsimp only
                      cases parse_specs s2 self a2 with
                      | error e => rfl
                      | ok w => cases w with | mk r2 a3 => rfl

/-- C9: accessing a native-bound object through `from_handle` checks the
frozen flag first for non-const access (a frozen wrapper fails with a
`FrozenError`-class error, even before the payload is inspected), then
fails with the distinct uninitialized-object error when no payload is
attached; const access skips the frozen check, so an initialized frozen
wrapper still supports non-mutating access while mutating access
fails. -/
theorem c9_wrapped_access_checks (p : Nat) :
    FromValue_wrapped false ⟨true, none⟩ = Except.error frozenError ∧
    FromValue_wrapped false ⟨true, some p⟩ = Except.error frozenError ∧
    FromValue_wrapped true ⟨true, some p⟩ = Except.ok p ∧
    FromValue_wrapped false ⟨false, some p⟩ = Except.ok p ∧
    FromValue_wrapped true ⟨true, none⟩ = Except.error uninitializedError ∧
    FromValue_wrapped false ⟨false, none⟩ = Except.error uninitializedError ∧
    FromValue_wrapped true ⟨false, none⟩ = Except.error uninitializedError ∧
    frozenError ≠ uninitializedError :=
  ⟨rfl, rfl, rfl, rfl, rfl, rfl, rfl, by decide⟩

/-- C10: copying a two-way-associated payload never transfers the
managed back-reference: the copy constructor yields an unassociated
association state, copy assignment leaves the target unchanged, and
`initialize_copy` therefore succeeds in its one-shot association — the
new payload stores its own wrapper handle, never the handle of the
payload it was copied from — even when the source payload is itself
associated. -/
theorem c10_copy_never_transfers_association (obj : Payload) (value w : Value)
    (t s : AssociatedValue) :
    AssociatedValue_copy ⟨some w⟩ = ⟨none⟩ ∧
    AssociatedValue_assign t s = t ∧
    Payload_copy obj = ⟨⟨none⟩, obj.data⟩ ∧
    initialize_copy value obj = Except.ok ⟨⟨some value⟩, obj.data⟩ ∧
    get_associated_value ⟨some value⟩ = some value :=
  ⟨rfl, rfl, rfl, rfl, rfl⟩

end RCX
